import Mathlib

/-!
# Verification of the StagewellAI PostHog stats-aggregation script

A shallow embedding of `scripts/update_stats.py` and proofs about it.

Modelling conventions:

* A PostHog event is a record with an optional actor identifier
  (`distinct_id`) and the optional properties the script reads.  Numeric
  properties (durations, day counts, mood deltas, hours) are embedded as
  integers / naturals.
* Python truthiness on optional string properties (`if challenge_id:`,
  `if not tool_id:`, `if person_id:`) treats both a missing key and an
  empty string as false; `optStr` performs exactly that normalisation.
  Truthiness on optional numeric properties (`if days:`, `if duration:`)
  additionally rejects the value `0`.
* Python's `round(x, 3)` is modelled exactly over the rationals by
  representing every 3-decimal-rounded value by its integer number of
  thousandths: `divRound3 num den` is `round(num/den, 3) * 1000`, using
  round-half-to-even as documented for Python's `round`.  So a stored
  field `completion_rate_millis = 1000` stands for the emitted JSON value
  `1.0`, and `2000` for `2.0`.
* Dictionaries keyed by identifier (`defaultdict` accumulators) are
  embedded by the list of their keys in first-insertion order
  (`firstSeen`) together with functions from a key to its accumulated
  data; Python 3 dict iteration order is insertion order, which is what
  `max(d, key=d.get)` tie-breaking depends on.
* The network fetchers are embedded as functions of the transport
  outcome (`Except`): each body's `try/except` that returns `[]` becomes
  the function collapsing the error case to the empty list.
-/

/-- The keys of a Python dict in insertion order: first occurrence of each
element, in order of first appearance. -/
def firstSeen {α : Type} [DecidableEq α] : List α → List α
  | [] => []
  | x :: xs => x :: (firstSeen xs).filter (fun y => y ≠ x)

theorem mem_firstSeen {α : Type} [DecidableEq α] (a : α) (l : List α) :
    a ∈ firstSeen l ↔ a ∈ l := by
  induction l with
  | nil => simp [firstSeen]
  | cons x xs ih =>
    by_cases h : a = x <;> simp [firstSeen, List.mem_filter, h, ih]

/-- Nearest-integer value of `a / b` (for `b > 0`), ties going to the even
integer: the rounding mode documented for Python's built-in `round`. -/
def divRoundHalfEven (a b : ℤ) : ℤ :=
  let f := a.fdiv b
  let r2 := 2 * (a - f * b)
  if r2 < b then f
  else if b < r2 then f + 1
  else if f % 2 = 0 then f else f + 1

/-- `round(num/den, 3)` expressed in thousandths: the integer
`round(num/den, 3) * 1000`. -/
def divRound3 (num den : ℤ) : ℤ := divRoundHalfEven (1000 * num) den

/-- One analytics event, holding the actor identifier and every property
the script reads.  `none` is an absent property. -/
structure Event where
  distinct_id : Option String
  challenge_id : Option String
  days_to_complete : Option ℕ
  tool_id : Option String
  tool_name : Option String
  category : Option String
  completed : Bool
  actual_duration_seconds : Option ℕ
  mood_impact : Option ℤ
  hour_of_day : Option ℕ
  is_weekend : Bool
  streak_days : Option ℕ
deriving DecidableEq

/-- An event with every property absent; concrete inputs are built from it
by overriding fields. -/
def baseEvent : Event :=
  { distinct_id := none
    challenge_id := none
    days_to_complete := none
    tool_id := none
    tool_name := none
    category := none
    completed := false
    actual_duration_seconds := none
    mood_impact := none
    hour_of_day := none
    is_weekend := false
    streak_days := none }

/-- Python truthiness of an optional string: `none` and `""` are falsy. -/
def optStr (o : Option String) : Option String :=
  match o with
  | some s => if s = "" then none else some s
  | none => none

/-- Python truthiness of an optional natural: `none` and `0` are falsy. -/
def optNat (o : Option ℕ) : Option ℕ :=
  match o with
  | some n => if n = 0 then none else some n
  | none => none

def challengeIdOf (e : Event) : Option String := optStr e.challenge_id

def toolIdOf (e : Event) : Option String := optStr e.tool_id

def personIdOf (e : Event) : Option String := optStr e.distinct_id

-- Configuration constants of the script.

def LOOKBACK_DAYS : ℕ := 90

def MIN_SESSIONS_FOR_TOOL : ℕ := 50

def MIN_USERS_FOR_TOOL : ℕ := 10

def MIN_USERS_FOR_STAGE : ℕ := 20

def MIN_DAILY_USERS : ℕ := 10

/-- The fixed enumerated challenge identifiers (`CHALLENGE_IDS`). -/
def CHALLENGE_IDS : List String :=
  ["movement_7day",
   "morning_walks_30",
   "strength_training_8week",
   "stretching_14day",
   "steps_10k_21day",
   "sleep_schedule_14day",
   "evening_winddown_21",
   "power_naps_7day",
   "hydration_30day",
   "meal_prep_4week",
   "no_sugar_14day",
   "breathing_7day",
   "meditation_21day",
   "mindful_eating_14",
   "gratitude_30day",
   "gratitude_letters_7",
   "journal_streak_30",
   "morning_pages_14",
   "evening_reflection_21",
   "morning_routine_21",
   "evening_routine_14",
   "digital_detox_weekend"]

/-- One emitted record of `challenge_stats`.  `completion_rate_millis` is
the 3-decimal-rounded completion rate in thousandths;
`average_days_to_complete` is `none` when the key is omitted. -/
structure ChallengeStat where
  challenge_id : String
  completion_rate_millis : ℤ
  total_starts : ℕ
  total_completions : ℕ
  average_days_to_complete : Option ℕ
deriving DecidableEq

/-- `starts[challenge_id]`: started events carrying that (truthy)
`challenge_id` property. -/
def startCount (started : List Event) (cid : String) : ℕ :=
  started.countP (fun e => challengeIdOf e = some cid)

/-- `completions[challenge_id]`: completed events carrying that (truthy)
`challenge_id` property. -/
def completionCount (completed : List Event) (cid : String) : ℕ :=
  completed.countP (fun e => challengeIdOf e = some cid)

/-- `completion_days[challenge_id]`: the truthy `days_to_complete` samples
of the completed events of that challenge, in order. -/
def completionDays (completed : List Event) (cid : String) : List ℕ :=
  completed.filterMap (fun e =>
    if challengeIdOf e = some cid then optNat e.days_to_complete else none)

/-- `calculate_challenge_stats`: one record per enumerated challenge id
with at least one start; `average_days_to_complete` is the truncated mean
of the day samples, included only when truthy (Python `if avg_days:`). -/
def calculate_challenge_stats (started completed : List Event) :
    List ChallengeStat :=
  CHALLENGE_IDS.filterMap (fun cid =>
    let total_starts := startCount started cid
    let total_completions := completionCount completed cid
    if 0 < total_starts then
      let days := completionDays completed cid
      let avg_days : Option ℕ :=
        if days.isEmpty then none else optNat (some (days.sum / days.length))
      some { challenge_id := cid
             completion_rate_millis :=
               divRound3 (total_completions : ℤ) (total_starts : ℤ)
             total_starts := total_starts
             total_completions := total_completions
             average_days_to_complete := avg_days }
    else none)

/-- One emitted record of `tool_stats`.  3-decimal-rounded fields are in
thousandths; `none` marks a key the script omits. -/
structure ToolStat where
  tool_id : String
  tool_name : String
  category : String
  total_sessions : ℕ
  total_users : ℕ
  completion_rate_millis : ℤ
  avg_session_duration : Option ℕ
  avg_mood_impact_millis : Option ℤ
  peak_usage_hour : Option ℕ
deriving DecidableEq

/-- The events accumulated under `tool_data[tid]`: those with truthy
`tool_id` equal to `tid` (events without a truthy `tool_id` hit the
`continue`). -/
def toolEvents (events : List Event) (tid : String) : List Event :=
  events.filter (fun e => toolIdOf e = some tid)

/-- `tool_data[tid]["sessions"]`. -/
def sessionCount (events : List Event) (tid : String) : ℕ :=
  (toolEvents events tid).length

/-- `tool_data[tid]["users"]` as a list of distinct actor ids in
first-seen order; its length is the set's cardinality. -/
def toolUsers (events : List Event) (tid : String) : List String :=
  firstSeen ((toolEvents events tid).filterMap personIdOf)

/-- `len(tool_data[tid]["users"])`. -/
def userCount (events : List Event) (tid : String) : ℕ :=
  (toolUsers events tid).length

/-- `tool_data[tid]["completions"]`: events with a truthy `completed`
property. -/
def toolCompletions (events : List Event) (tid : String) : ℕ :=
  (toolEvents events tid).countP (fun e => e.completed)

/-- `tool_data[tid]["durations"]`: truthy `actual_duration_seconds`
samples. -/
def toolDurations (events : List Event) (tid : String) : List ℕ :=
  (toolEvents events tid).filterMap (fun e => optNat e.actual_duration_seconds)

/-- `tool_data[tid]["mood_impacts"]`: `mood_impact` samples present on the
event (`is not None`, no truthiness). -/
def toolMoodImpacts (events : List Event) (tid : String) : List ℤ :=
  (toolEvents events tid).filterMap (fun e => e.mood_impact)

/-- `tool_data[tid]["hours"]`: `hour_of_day` samples present on the event
(`is not None`, no truthiness). -/
def toolHours (events : List Event) (tid : String) : List ℕ :=
  (toolEvents events tid).filterMap (fun e => e.hour_of_day)

/-- `tool_data[tid]["name"]`: `props.get("tool_name", tool_id)` is
re-assigned on every event of the tool, so the retained value comes from
the tool's last event. -/
def toolName (events : List Event) (tid : String) : String :=
  (((toolEvents events tid).map (fun e => e.tool_name.getD tid)).getLast?).getD tid

/-- `tool_data[tid]["category"]`: likewise the last event's
`props.get("category", "other")`. -/
def toolCategory (events : List Event) (tid : String) : String :=
  (((toolEvents events tid).map (fun e => e.category.getD "other")).getLast?).getD "other"

/-- `max(hour_counts, key=hour_counts.get)`: among the distinct hours in
first-insertion order, the first one attaining the maximal occurrence
count (Python's `max` replaces the running best only on a strictly
greater key).  `none` when there are no samples. -/
def peakUsageHour (hours : List ℕ) : Option ℕ :=
  match firstSeen hours with
  | [] => none
  | k :: ks =>
    some (ks.foldl (fun best h => if hours.count best < hours.count h then h else best) k)

/-- The dict keys of `tool_data` in insertion order. -/
def toolIds (events : List Event) : List String :=
  firstSeen (events.filterMap toolIdOf)

/-- The summary record built for a tool that passed the thresholds
(lines 210–231 of the script).  The `completion_rate` division keeps the
source's `if data["sessions"] > 0 ... else 0` guard. -/
def buildToolStat (events : List Event) (tid : String) : ToolStat :=
  let sessions := sessionCount events tid
  let durations := toolDurations events tid
  let moods := toolMoodImpacts events tid
  { tool_id := tid
    tool_name := toolName events tid
    category := toolCategory events tid
    total_sessions := sessions
    total_users := userCount events tid
    completion_rate_millis :=
      if 0 < sessions then divRound3 (toolCompletions events tid : ℤ) (sessions : ℤ) else 0
    avg_session_duration :=
      if durations.isEmpty then none else some (durations.sum / durations.length)
    avg_mood_impact_millis :=
      if moods.isEmpty then none else some (divRound3 moods.sum (moods.length : ℤ))
    peak_usage_hour := peakUsageHour (toolHours events tid) }

/-- The `tool_stats` list of `calculate_tool_stats`: a record per
accumulated tool meeting both thresholds. -/
def calculate_tool_stats (events : List Event) : List ToolStat :=
  (toolIds events).filterMap (fun tid =>
    if MIN_SESSIONS_FOR_TOOL ≤ sessionCount events tid ∧
        MIN_USERS_FOR_TOOL ≤ userCount events tid then
      some (buildToolStat events tid)
    else none)

/-- The tool half of `calculate_tool_stats`' return value: `None` when no
events were fetched (`if not events: return None, None`) and `None` in
place of an empty list (`tool_stats if tool_stats else None`). -/
def tool_stats_output (events : List Event) : Option (List ToolStat) :=
  if events.isEmpty then none
  else if (calculate_tool_stats events).isEmpty then none
  else some (calculate_tool_stats events)

/-- The `community_stats` object; 3-decimal values do not occur here, all
fields are counts. -/
structure CommunityStats where
  active_users_today : ℕ
  active_users_this_week : ℕ
  challenges_completed_today : ℕ
  challenges_completed_this_week : ℕ
  milestones_hit_today : ℕ
  total_meditation_minutes_today : ℕ
  total_journal_entries_today : ℕ
deriving DecidableEq

/-- Number of distinct truthy `distinct_id` values of an event list. -/
def uniqueUsers (events : List Event) : ℕ :=
  (firstSeen (events.filterMap personIdOf)).length

/-- `calculate_community_stats`, a function of the six fetched event
lists.  Returns `none` (the script's `None`) when today's unique-actor
count is below `MIN_DAILY_USERS`.  The meditation total adds
`duration // 60` per meditation-category session, with the `0` default of
`props.get("actual_duration_seconds", 0)`. -/
def calculate_community_stats (today_events week_events today_challenges
    week_challenges today_milestones today_journals : List Event) :
    Option CommunityStats :=
  let active_today := uniqueUsers today_events
  if active_today < MIN_DAILY_USERS then none
  else
    some { active_users_today := active_today
           active_users_this_week := uniqueUsers week_events
           challenges_completed_today := today_challenges.length
           challenges_completed_this_week := week_challenges.length
           milestones_hit_today := today_milestones.length
           total_meditation_minutes_today :=
             ((today_events.filter (fun e => e.category = some "meditation")).map
               (fun e => e.actual_duration_seconds.getD 0 / 60)).sum
           total_journal_entries_today := today_journals.length }

/-- `streak_retention` of the effectiveness family; the two retention
fields are the hardcoded literals `0.5` and `0.2`, in thousandths. -/
structure StreakRetention where
  avg_streak_length : ℕ
  day_7_retention_millis : ℤ
  day_30_retention_millis : ℤ
deriving DecidableEq

/-- `engagement_patterns` of the effectiveness family; the three
`peak_*_tool` keys are always emitted as `None`. -/
structure EngagementPatterns where
  most_active_hour : ℕ
  weekend_vs_weekday_ratio_millis : ℤ
  peak_morning_tool : Option String
  peak_afternoon_tool : Option String
  peak_evening_tool : Option String
deriving DecidableEq

/-- The `effectiveness_stats` object. -/
structure EffectivenessStats where
  mood_improvement_by_tool : List (String × ℤ)
  streak_retention : StreakRetention
  engagement_patterns : EngagementPatterns
deriving DecidableEq

/-- `mood_by_tool[tid]` of `calculate_effectiveness_stats`: `mood_impact`
samples of events with truthy `tool_id = tid` and `mood_impact` present —
the same samples as `tool_data[tid]["mood_impacts"]`. -/
def moodImpacts (events : List Event) (tid : String) : List ℤ :=
  toolMoodImpacts events tid

/-- The dict keys of `mood_by_tool` in insertion order. -/
def moodKeys (events : List Event) : List String :=
  firstSeen (events.filterMap (fun e =>
    match toolIdOf e, e.mood_impact with
    | some tid, some _ => some tid
    | _, _ => none))

/-- The `mood_improvement` dict: tools with at least 20 samples whose
average is strictly positive, mapped to the rounded average in
thousandths.  For an integer sample list of positive length,
`sum(impacts)/len(impacts) > 0` is exactly `0 < impacts.sum`. -/
def mood_improvement (events : List Event) : List (String × ℤ) :=
  (moodKeys events).filterMap (fun tid =>
    let impacts := moodImpacts events tid
    if 20 ≤ impacts.length then
      if 0 < impacts.sum then
        some (tid, divRound3 impacts.sum (impacts.length : ℤ))
      else none
    else none)

/-- `calculate_effectiveness_stats`, a function of the tool-session events
and the streak-milestone events.  Returns `none` when `mood_improvement`
is empty; otherwise the streak, peak-hour and weekend-ratio statistics
with their fallback defaults (7, 12, 0.6). -/
def calculate_effectiveness_stats (events streak_events : List Event) :
    Option EffectivenessStats :=
  let mi := mood_improvement events
  if mi.isEmpty then none
  else
    let streaks := streak_events.map (fun e => e.streak_days.getD 0)
    let hours := events.filterMap (fun e => e.hour_of_day)
    let weekend_count := events.countP (fun e => e.is_weekend)
    let weekday_count := events.countP (fun e => ¬ e.is_weekend)
    some { mood_improvement_by_tool := mi
           streak_retention :=
             { avg_streak_length :=
                 if streaks.isEmpty then 7 else streaks.sum / streaks.length
               day_7_retention_millis := 500
               day_30_retention_millis := 200 }
           engagement_patterns :=
             { most_active_hour := (peakUsageHour hours).getD 12
               weekend_vs_weekday_ratio_millis :=
                 if 0 < weekday_count then
                   divRound3 (weekend_count : ℤ) (weekday_count : ℤ)
                 else 600
               peak_morning_tool := none
               peak_afternoon_tool := none
               peak_evening_tool := none } }

/-- `query_posthog_events`, as a function of the transport outcome: the
body's `try/except` absorbs any failure by returning the empty list. -/
def query_posthog_events (response : Except String (List Event)) : List Event :=
  match response with
  | Except.ok results => results
  | Except.error _ => []

/-- `query_posthog_hogql`, as a function of the transport outcome: its
body wraps the POST in the same `try/except` pattern as
`query_posthog_events`, absorbing any failure by returning the empty
list (lines 91–97 of the script).  `α` is the row type of the HogQL
result set. -/
def query_posthog_hogql {α : Type} (response : Except String (List α)) :
    List α :=
  match response with
  | Except.ok results => results
  | Except.error _ => []

/-- One emitted record of `tool_category_stats` (shape only: no claim
depends on the category aggregation, but the family participates in the
merge step). -/
structure CategoryStat where
  category : String
  most_popular_tool_id : String
  most_popular_tool_name : String
  total_sessions : ℕ
  avg_completion_rate_millis : ℤ
  avg_mood_impact_millis : Option ℤ
deriving DecidableEq

/-- One emitted record of `stage_stats` (shape only: no claim depends on
the stage aggregation, but the family participates in the merge step). -/
structure StageStat where
  stage : String
  total_users_reached : ℕ
  total_users_completed : ℕ
  top_tool_ids : List String
  top_challenge_ids : List String
  avg_days_in_stage : ℕ
deriving DecidableEq

/-- The `thresholds` object written into the output document. -/
structure Thresholds where
  min_sessions_for_tool_stats : ℕ
  min_users_for_tool_stats : ℕ
  min_users_for_stage_stats : ℕ
  min_daily_users_for_community : ℕ
  min_completions_for_challenge : ℕ
deriving DecidableEq

/-- The `thresholds` value `main` writes: the four module constants plus
the literal `5` for `min_completions_for_challenge`. -/
def outputThresholds : Thresholds :=
  { min_sessions_for_tool_stats := MIN_SESSIONS_FOR_TOOL
    min_users_for_tool_stats := MIN_USERS_FOR_TOOL
    min_users_for_stage_stats := MIN_USERS_FOR_STAGE
    min_daily_users_for_community := MIN_DAILY_USERS
    min_completions_for_challenge := 5 }

/-- The persisted output document (`config/stats.json`).  `path_stats` is
always `null`. -/
structure OutputDoc where
  challenge_stats : List ChallengeStat
  path_stats : Option Unit
  tool_stats : Option (List ToolStat)
  tool_category_stats : Option (List CategoryStat)
  stage_stats : Option (List StageStat)
  community_stats : Option CommunityStats
  effectiveness_stats : Option EffectivenessStats
  thresholds : Thresholds
  last_updated : String
deriving DecidableEq

/-- The challenge-family merge of `main` (lines 482–487): only when the
newly computed list is truthy (non-empty) are previous records whose id is
absent from the new list appended after the new records. -/
def mergeChallengeStats (newStats oldStats : List ChallengeStat) :
    List ChallengeStat :=
  if newStats.isEmpty then newStats
  else
    newStats ++ oldStats.filter (fun old =>
      old.challenge_id ∉ newStats.map (fun s => s.challenge_id))

/-- The merge-and-assemble step of `main` (lines 476–508): the challenge
family is merged against the previous document when one exists, every
other family is taken from the current run unchanged, and the fixed
`thresholds` object and timestamp are attached. -/
def mergeStep (challenge_stats : List ChallengeStat)
    (tool_stats : Option (List ToolStat))
    (category_stats : Option (List CategoryStat))
    (stage_stats : Option (List StageStat))
    (community_stats : Option CommunityStats)
    (effectiveness_stats : Option EffectivenessStats)
    (last_updated : String) (existing : Option OutputDoc) : OutputDoc :=
  { challenge_stats :=
      match existing with
      | none => challenge_stats
      | some doc => mergeChallengeStats challenge_stats doc.challenge_stats
    path_stats := none
    tool_stats := tool_stats
    tool_category_stats := category_stats
    stage_stats := stage_stats
    community_stats := community_stats
    effectiveness_stats := effectiveness_stats
    thresholds := outputThresholds
    last_updated := last_updated }

-- Helper lemmas shared by the claim theorems.

theorem filterMap_replicate_of_none {α β : Type} (f : α → Option β) (a : α)
    (h : f a = none) (n : ℕ) :
    List.filterMap f (List.replicate n a) = [] := by
  induction n with
  | zero => rfl
  | succ n ih => simp [List.replicate_succ, List.filterMap_cons, h, ih]

theorem mergeChallengeStats_nonempty (n p : List ChallengeStat)
    (h : n.isEmpty = false) :
    mergeChallengeStats n p =
      n ++ p.filter (fun old =>
        old.challenge_id ∉ n.map (fun s => s.challenge_id)) := by
  simp [mergeChallengeStats, h]

theorem mergeChallengeStats_idem (n p : List ChallengeStat) :
    mergeChallengeStats n (mergeChallengeStats n p) = mergeChallengeStats n p := by
  by_cases hn : n.isEmpty
  · simp [mergeChallengeStats, hn]
  · rw [Bool.not_eq_true] at hn
    rw [mergeChallengeStats_nonempty n p hn, mergeChallengeStats_nonempty _ _ hn,
      List.filter_append]
    have h2 : n.filter (fun old =>
        old.challenge_id ∉ n.map (fun s => s.challenge_id)) = [] := by
      rw [List.filter_eq_nil_iff]
      intro a ha
      simp only [decide_not, Bool.not_eq_true', decide_eq_false_iff_not, not_not]
      exact List.mem_map.mpr ⟨a, ha, rfl⟩
    rw [h2, List.nil_append, List.filter_filter]
    simp

/-- Claim C2: the community-stats family is `none` exactly when the number
of distinct truthy actor identifiers among today's tool-session events is
below 10; for 10 or more it is a populated `CommunityStats` object (whose
fields are all total by construction). -/
theorem community_stats_null_iff_low_actors
    (today week tc wc tm tj : List Event) :
    calculate_community_stats today week tc wc tm tj = none ↔
      uniqueUsers today < 10 := by
  rw [calculate_community_stats]
  split <;> simp_all [MIN_DAILY_USERS]

/-- Claim C7 counterexample: on a concrete transport failure the raw
HogQL fetcher does not propagate the error — it returns the empty list,
exactly as the standard per-event-type fetcher does on the same failure. -/
theorem hogql_error_not_propagated_cx :
    @query_posthog_hogql Event (Except.error "connection refused") = [] ∧
      query_posthog_events (Except.error "connection refused") = [] :=
  ⟨rfl, rfl⟩

/-- Claim C7 (amended): the raw-query variant of the fetcher carries the
same `try/except` as the standard per-event-type fetch: on any transport
or HTTP failure both absorb the error and return an empty list, and on
any transport outcome the raw variant behaves exactly like the standard
fetch — neither propagates a failure to its caller. -/
theorem fetchers_uniform_error_absorption :
    (∀ err : String,
      query_posthog_events (Except.error err) = [] ∧
      ∀ (α : Type), @query_posthog_hogql α (Except.error err) = []) ∧
    (∀ response : Except String (List Event),
      @query_posthog_hogql Event response = query_posthog_events response) :=
  ⟨fun _ => ⟨rfl, fun _ => rfl⟩, fun response => by cases response <;> rfl⟩

/-- Claim C8: when no tool has at least 20 mood-impact samples with a
strictly positive average, the effectiveness family is `none`, so the
streak-retention, peak-hour and weekend-ratio sub-statistics are not
emitted either, whatever the streak or session events contain. -/
theorem effectiveness_null_without_qualifying_tool
    (events streak_events : List Event)
    (h : ∀ tid, ¬ (20 ≤ (moodImpacts events tid).length ∧
        0 < (moodImpacts events tid).sum)) :
    calculate_effectiveness_stats events streak_events = none := by
  have hmi : mood_improvement events = [] := by
    rw [mood_improvement, List.filterMap_eq_nil_iff]
    intro tid _
    have htid := h tid
    dsimp only
    split_ifs with h1 h2
    · exact absurd ⟨h1, h2⟩ htid
    · rfl
    · rfl
  simp [calculate_effectiveness_stats, hmi]

/-- An event that would populate the streak statistic, used to show the
effectiveness gate suppresses it. -/
def demoStreakEvent : Event := { baseEvent with streak_days := some 12 }

theorem effectiveness_null_without_qualifying_tool_witness :
    calculate_effectiveness_stats [] [demoStreakEvent] = none :=
  effectiveness_null_without_qualifying_tool [] [demoStreakEvent]
    (fun tid => by simp [moodImpacts, toolMoodImpacts, toolEvents])

/-- Claim C5: re-running the merge step with the same newly computed
challenge list against the document the first run persisted yields the
same challenge list — no record is duplicated or accumulated twice. -/
theorem merge_step_idempotent (newC : List ChallengeStat)
    (tool : Option (List ToolStat)) (cat : Option (List CategoryStat))
    (stage : Option (List StageStat)) (com : Option CommunityStats)
    (eff : Option EffectivenessStats) (ts1 ts2 : String) (prev : OutputDoc) :
    (mergeStep newC tool cat stage com eff ts2
        (some (mergeStep newC tool cat stage com eff ts1 (some prev)))).challenge_stats =
      (mergeStep newC tool cat stage com eff ts1 (some prev)).challenge_stats := by
  simp only [mergeStep]
  exact mergeChallengeStats_idem newC prev.challenge_stats

theorem mem_toolIds (events : List Event) (tid : String) :
    tid ∈ toolIds events ↔ ∃ e ∈ events, toolIdOf e = some tid := by
  simp [toolIds, mem_firstSeen, List.mem_filterMap]

theorem buildToolStat_tool_id (events : List Event) (tid : String) :
    (buildToolStat events tid).tool_id = tid := rfl

theorem sessionCount_pos_iff (events : List Event) (tid : String) :
    0 < sessionCount events tid ↔ ∃ e ∈ events, toolIdOf e = some tid := by
  rw [sessionCount, toolEvents, ← List.countP_eq_length_filter, List.countP_pos_iff]
  simp

theorem mem_calculate_tool_stats_iff (events : List Event) (tid : String) :
    (∃ s ∈ calculate_tool_stats events, s.tool_id = tid) ↔
      MIN_SESSIONS_FOR_TOOL ≤ sessionCount events tid ∧
        MIN_USERS_FOR_TOOL ≤ userCount events tid := by
  constructor
  · rintro ⟨s, hs, hid⟩
    rw [calculate_tool_stats, List.mem_filterMap] at hs
    obtain ⟨t, ht, hft⟩ := hs
    by_cases hc : MIN_SESSIONS_FOR_TOOL ≤ sessionCount events t ∧
        MIN_USERS_FOR_TOOL ≤ userCount events t
    · rw [if_pos hc] at hft
      obtain rfl := Option.some.inj hft
      rw [buildToolStat_tool_id] at hid
      subst hid
      exact hc
    · rw [if_neg hc] at hft
      exact absurd hft (by simp)
  · rintro ⟨h1, h2⟩
    have hex : ∃ e ∈ events, toolIdOf e = some tid := by
      rw [← sessionCount_pos_iff]
      exact lt_of_lt_of_le (by norm_num [MIN_SESSIONS_FOR_TOOL]) h1
    refine ⟨buildToolStat events tid, ?_, buildToolStat_tool_id _ _⟩
    rw [calculate_tool_stats, List.mem_filterMap]
    exact ⟨tid, (mem_toolIds events tid).mpr hex, if_pos ⟨h1, h2⟩⟩

/-- Claim C1: a summary record for a tool identifier appears in the
`tool_stats` output exactly when its accumulated session count is at
least 50 and its distinct-actor count is at least 10; failing either
threshold excludes the tool whatever its other statistics are. -/
theorem tool_stats_presence_iff_thresholds (events : List Event) (tid : String) :
    (∃ l, tool_stats_output events = some l ∧ ∃ s ∈ l, s.tool_id = tid) ↔
      50 ≤ sessionCount events tid ∧ 10 ≤ userCount events tid := by
  rw [show ((50 : ℕ) ≤ sessionCount events tid ∧ 10 ≤ userCount events tid) ↔
      (MIN_SESSIONS_FOR_TOOL ≤ sessionCount events tid ∧
        MIN_USERS_FOR_TOOL ≤ userCount events tid) from Iff.rfl]
  rw [← mem_calculate_tool_stats_iff]
  constructor
  · rintro ⟨l, hl, hs⟩
    by_cases h1 : events.isEmpty
    · rw [tool_stats_output, if_pos h1] at hl
      exact absurd hl (by simp)
    · by_cases h2 : (calculate_tool_stats events).isEmpty
      · rw [tool_stats_output, if_neg h1, if_pos h2] at hl
        exact absurd hl (by simp)
      · rw [tool_stats_output, if_neg h1, if_neg h2] at hl
        have heq := Option.some.inj hl
        subst heq
        exact hs
  · rintro ⟨s, hmem, hid⟩
    have hth := (mem_calculate_tool_stats_iff events tid).mp ⟨s, hmem, hid⟩
    have hev : events.isEmpty = false := by
      cases events with
      | nil =>
        have h0 := hth.1
        simp [sessionCount, toolEvents, MIN_SESSIONS_FOR_TOOL] at h0
      | cons a l => rfl
    have hne : (calculate_tool_stats events).isEmpty = false := by
      have := List.ne_nil_of_mem hmem
      cases h : calculate_tool_stats events with
      | nil => exact absurd h this
      | cons a l => rfl
    refine ⟨calculate_tool_stats events, ?_, s, hmem, hid⟩
    rw [tool_stats_output, hev, hne]
    rfl

/-- Claim C10: every record emitted by the tool-stats builder has at least
50 sessions, so the `sessions > 0` guard around the completion-rate
division always takes its positive branch and the rate equals the
unguarded quotient — the fallback value `0` of the guard is never
produced. -/
theorem tool_completion_rate_guard_unreachable (events : List Event)
    (s : ToolStat) (hs : s ∈ calculate_tool_stats events) :
    50 ≤ s.total_sessions ∧
      s.completion_rate_millis =
        divRound3 (toolCompletions events s.tool_id : ℤ) (s.total_sessions : ℤ) := by
  rw [calculate_tool_stats, List.mem_filterMap] at hs
  obtain ⟨t, ht, hft⟩ := hs
  by_cases hc : MIN_SESSIONS_FOR_TOOL ≤ sessionCount events t ∧
      MIN_USERS_FOR_TOOL ≤ userCount events t
  · rw [if_pos hc] at hft
    obtain rfl := Option.some.inj hft
    have hsessions : (buildToolStat events t).total_sessions = sessionCount events t := rfl
    have hrate : (buildToolStat events t).completion_rate_millis =
        if 0 < sessionCount events t then
          divRound3 (toolCompletions events t : ℤ) (sessionCount events t : ℤ)
        else 0 := rfl
    constructor
    · rw [hsessions]
      exact hc.1
    · rw [hsessions, buildToolStat_tool_id, hrate,
        if_pos (lt_of_lt_of_le (by norm_num [MIN_SESSIONS_FOR_TOOL]) hc.1)]
  · rw [if_neg hc] at hft
    exact absurd hft (by simp)

/-- Ten distinct actor identifiers for the concrete inputs below. -/
def demoUsers : List String :=
  ["u0", "u1", "u2", "u3", "u4", "u5", "u6", "u7", "u8", "u9"]

/-- Fifty completed sessions of one tool spread over the ten actors:
enough to pass both tool thresholds. -/
def demoToolEvents : List Event :=
  (List.range 50).map (fun i =>
    { baseEvent with
        tool_id := some "breathing"
        tool_name := some "Breathing"
        category := some "meditation"
        distinct_id := demoUsers[i % 10]?
        completed := true })

def demoToolStat : ToolStat := buildToolStat demoToolEvents "breathing"

set_option maxRecDepth 4000

theorem tool_completion_rate_guard_unreachable_witness :
    demoToolStat ∈ calculate_tool_stats demoToolEvents ∧
      50 ≤ demoToolStat.total_sessions ∧
      demoToolStat.completion_rate_millis =
        divRound3 (toolCompletions demoToolEvents demoToolStat.tool_id : ℤ)
          (demoToolStat.total_sessions : ℤ) :=
  ⟨by decide, tool_completion_rate_guard_unreachable demoToolEvents demoToolStat (by decide)⟩

/-- Claim C9: the persisted thresholds object reports
`min_completions_for_challenge = 5`, yet a challenge record is emitted
exactly when the challenge has at least one start — the completion count
plays no part in the decision, so the threshold is never applied. -/
theorem min_completions_threshold_never_applied :
    outputThresholds.min_completions_for_challenge = 5 ∧
    ∀ (started completed : List Event) (cid : String), cid ∈ CHALLENGE_IDS →
      ((∃ s ∈ calculate_challenge_stats started completed, s.challenge_id = cid) ↔
        0 < startCount started cid) := by
  refine ⟨rfl, fun started completed cid hcid => ?_⟩
  constructor
  · rintro ⟨s, hs, hid⟩
    rw [calculate_challenge_stats, List.mem_filterMap] at hs
    obtain ⟨c, hc, hfc⟩ := hs
    dsimp only at hfc
    by_cases hpos : 0 < startCount started c
    · rw [if_pos hpos] at hfc
      obtain rfl := Option.some.inj hfc
      have hcc : c = cid := hid
      subst hcc
      exact hpos
    · rw [if_neg hpos] at hfc
      exact absurd hfc (by simp)
  · intro hpos
    refine ⟨{ challenge_id := cid
              completion_rate_millis :=
                divRound3 (completionCount completed cid : ℤ) (startCount started cid : ℤ)
              total_starts := startCount started cid
              total_completions := completionCount completed cid
              average_days_to_complete :=
                if (completionDays completed cid).isEmpty then none
                else optNat (some ((completionDays completed cid).sum /
                  (completionDays completed cid).length)) },
        List.mem_filterMap.mpr ⟨cid, hcid, ?_⟩, rfl⟩
    dsimp only
    rw [if_pos hpos]

/-- A single started event for the first enumerated challenge. -/
def demoStartEvent : Event := { baseEvent with challenge_id := some "movement_7day" }

theorem min_completions_threshold_never_applied_witness :
    (∃ s ∈ calculate_challenge_stats [demoStartEvent] [], s.challenge_id = "movement_7day") ∧
      (calculate_challenge_stats [demoStartEvent] []).map
        (fun s => s.total_completions) = [0] :=
  ⟨(min_completions_threshold_never_applied.2 [demoStartEvent] [] "movement_7day"
      (by decide)).mpr (by decide),
   by decide⟩

/-- 4000 starts of `movement_7day`. -/
def manyStarts : List Event := List.replicate 4000 demoStartEvent

/-- 4001 completions of `movement_7day`: more completions than starts. -/
def manyCompletions : List Event := List.replicate 4001 demoStartEvent

/-- The record the script emits for that input: `4001/4000 = 1.00025`
rounds at 3 decimals to exactly `1.0` (1000 thousandths). -/
def overroundStat : ChallengeStat :=
  { challenge_id := "movement_7day"
    completion_rate_millis := 1000
    total_starts := 4000
    total_completions := 4001
    average_days_to_complete := none }

/-- Claim C3 counterexample: with 4000 starts and 4001 completions the
emitted record has more completions than starts, yet its rounded
completion rate is exactly 1, not greater than 1 — the claim's "when
completions exceed starts the emitted rate exceeds 1" fails. -/
theorem completion_rate_rounds_down_to_one_cx :
    calculate_challenge_stats manyStarts manyCompletions = [overroundStat] ∧
      overroundStat.total_starts < overroundStat.total_completions ∧
      ¬ 1000 < overroundStat.completion_rate_millis := by
  refine ⟨?_, by decide, by decide⟩
  have hch : challengeIdOf demoStartEvent = some "movement_7day" := rfl
  have h1 : ∀ cid, startCount manyStarts cid =
      if challengeIdOf demoStartEvent = some cid then 4000 else 0 := by
    intro cid
    rw [startCount, manyStarts, List.countP_replicate]
    simp only [decide_eq_true_eq]
  have h2 : ∀ cid, completionCount manyCompletions cid =
      if challengeIdOf demoStartEvent = some cid then 4001 else 0 := by
    intro cid
    rw [completionCount, manyCompletions, List.countP_replicate]
    simp only [decide_eq_true_eq]
  have h3 : ∀ cid, completionDays manyCompletions cid = [] := by
    intro cid
    rw [completionDays, manyCompletions]
    apply filterMap_replicate_of_none
    by_cases h : challengeIdOf demoStartEvent = some cid <;>
      simp [h, demoStartEvent, baseEvent, optNat]
  have hdr : divRound3 4001 4000 = 1000 := by decide
  simp [calculate_challenge_stats, CHALLENGE_IDS, h1, h2, h3, hch, hdr, overroundStat]

/-- Claim C3 (amended): every emitted challenge record's completion rate
is `round(completions/starts, 3)` with no clamping applied — the rounded
quotient itself is stored, and inputs with more completions than starts
can produce an emitted rate strictly greater than 1 — but a quotient only
slightly above 1 may round down to exactly 1, so completions exceeding
starts does not always make the emitted rate exceed 1. -/
theorem completion_rate_formula_unclamped :
    (∀ (started completed : List Event) (s : ChallengeStat),
        s ∈ calculate_challenge_stats started completed →
        s.completion_rate_millis =
          divRound3 (s.total_completions : ℤ) (s.total_starts : ℤ)) ∧
    (∃ s ∈ calculate_challenge_stats [demoStartEvent] [demoStartEvent, demoStartEvent],
        1000 < s.completion_rate_millis) := by
  constructor
  · intro started completed s hs
    rw [calculate_challenge_stats, List.mem_filterMap] at hs
    obtain ⟨c, hc, hfc⟩ := hs
    dsimp only at hfc
    by_cases hpos : 0 < startCount started c
    · rw [if_pos hpos] at hfc
      obtain rfl := Option.some.inj hfc
      rfl
    · rw [if_neg hpos] at hfc
      exact absurd hfc (by simp)
  · exact ⟨{ challenge_id := "movement_7day"
             completion_rate_millis := 2000
             total_starts := 1
             total_completions := 2
             average_days_to_complete := none }, by decide, by decide⟩

/-- The record of the one-start, two-completion input used to witness the
amended rate formula. -/
def overOneStat : ChallengeStat :=
  { challenge_id := "movement_7day"
    completion_rate_millis := 2000
    total_starts := 1
    total_completions := 2
    average_days_to_complete := none }

theorem completion_rate_formula_unclamped_witness :
    overOneStat ∈ calculate_challenge_stats [demoStartEvent]
        [demoStartEvent, demoStartEvent] ∧
      overOneStat.completion_rate_millis =
        divRound3 (overOneStat.total_completions : ℤ) (overOneStat.total_starts : ℤ) :=
  ⟨by decide,
   completion_rate_formula_unclamped.1 [demoStartEvent]
     [demoStartEvent, demoStartEvent] overOneStat (by decide)⟩

/-- A previously persisted record whose challenge does not occur in the
new run. -/
def oldChallengeStat : ChallengeStat :=
  { challenge_id := "hydration_30day"
    completion_rate_millis := 250
    total_starts := 4
    total_completions := 1
    average_days_to_complete := none }

/-- A newly computed record. -/
def newChallengeStat : ChallengeStat :=
  { challenge_id := "movement_7day"
    completion_rate_millis := 400
    total_starts := 100
    total_completions := 40
    average_days_to_complete := some 15 }

/-- A stale prior record with the same identifier as `newChallengeStat`. -/
def staleChallengeStat : ChallengeStat :=
  { challenge_id := "movement_7day"
    completion_rate_millis := 100
    total_starts := 10
    total_completions := 1
    average_days_to_complete := none }

/-- A previously persisted output document. -/
def prevDemoDoc : OutputDoc :=
  { challenge_stats := [staleChallengeStat, oldChallengeStat]
    path_stats := none
    tool_stats := none
    tool_category_stats := none
    stage_stats := none
    community_stats := none
    effectiveness_stats := none
    thresholds := outputThresholds
    last_updated := "2025-01-01T00:00:00Z" }

/-- Claim C4 counterexample: when the newly computed challenge list is
empty, the merge step does not carry the prior document's records
forward — `oldChallengeStat` is present only in the previous document yet
the merged challenge list is empty. -/
theorem merge_drops_prior_when_new_empty_cx :
    oldChallengeStat ∈ prevDemoDoc.challenge_stats ∧
      (mergeStep [] none none none none none "2025-01-02T00:00:00Z"
        (some prevDemoDoc)).challenge_stats = [] := by decide

/-- Claim C4 (amended): in the merge step every newly computed record is
persisted; a prior record whose identifier occurs in the new list is
discarded (it survives only if it is itself one of the new records);
provided the new list is non-empty, every prior record whose identifier
does not occur in the new list is carried forward unchanged (with an
empty new list nothing is carried forward); and every family other than
the challenge family takes the current run's value, carrying no prior
records forward. -/
theorem merge_override_carry_forward (newC : List ChallengeStat)
    (tool : Option (List ToolStat)) (cat : Option (List CategoryStat))
    (stage : Option (List StageStat)) (com : Option CommunityStats)
    (eff : Option EffectivenessStats) (ts : String) (prev : OutputDoc) :
    (∀ s ∈ newC,
      s ∈ (mergeStep newC tool cat stage com eff ts (some prev)).challenge_stats) ∧
    (∀ old ∈ prev.challenge_stats,
      old.challenge_id ∈ newC.map (fun s => s.challenge_id) →
      old ∈ (mergeStep newC tool cat stage com eff ts (some prev)).challenge_stats →
      old ∈ newC) ∧
    (newC ≠ [] →
      ∀ old ∈ prev.challenge_stats,
        old.challenge_id ∉ newC.map (fun s => s.challenge_id) →
        old ∈ (mergeStep newC tool cat stage com eff ts (some prev)).challenge_stats) ∧
    ((mergeStep newC tool cat stage com eff ts (some prev)).tool_stats = tool ∧
      (mergeStep newC tool cat stage com eff ts (some prev)).tool_category_stats = cat ∧
      (mergeStep newC tool cat stage com eff ts (some prev)).stage_stats = stage ∧
      (mergeStep newC tool cat stage com eff ts (some prev)).community_stats = com ∧
      (mergeStep newC tool cat stage com eff ts (some prev)).effectiveness_stats = eff) := by
  have hms : (mergeStep newC tool cat stage com eff ts (some prev)).challenge_stats =
      mergeChallengeStats newC prev.challenge_stats := rfl
  refine ⟨?_, ?_, ?_, rfl, rfl, rfl, rfl, rfl⟩
  · intro s hsn
    rw [hms, mergeChallengeStats_nonempty _ _ (by
      cases newC with
      | nil => exact absurd hsn (by simp)
      | cons a l => rfl)]
    exact List.mem_append_left _ hsn
  · intro old hold hid hmem
    rw [hms] at hmem
    by_cases hn : newC.isEmpty
    · cases newC with
      | nil => exact absurd hid (by simp)
      | cons a l => simp at hn
    · rw [Bool.not_eq_true] at hn
      rw [mergeChallengeStats_nonempty _ _ hn, List.mem_append] at hmem
      rcases hmem with hmem | hmem
      · exact hmem
      · rw [List.mem_filter] at hmem
        have := hmem.2
        simp only [decide_not, Bool.not_eq_true', decide_eq_false_iff_not] at this
        exact absurd hid this
  · intro hnne old hold hid
    have hn : newC.isEmpty = false := by
      cases newC with
      | nil => exact absurd rfl hnne
      | cons a l => rfl
    rw [hms, mergeChallengeStats_nonempty _ _ hn]
    refine List.mem_append_right _ ?_
    rw [List.mem_filter]
    exact ⟨hold, by simpa using hid⟩

theorem merge_override_carry_forward_witness :
    newChallengeStat ∈ (mergeStep [newChallengeStat] none none none none none
        "2025-01-02T00:00:00Z" (some prevDemoDoc)).challenge_stats ∧
      oldChallengeStat ∈ (mergeStep [newChallengeStat] none none none none none
        "2025-01-02T00:00:00Z" (some prevDemoDoc)).challenge_stats ∧
      staleChallengeStat ∉ (mergeStep [newChallengeStat] none none none none none
        "2025-01-02T00:00:00Z" (some prevDemoDoc)).challenge_stats :=
  ⟨(merge_override_carry_forward [newChallengeStat] none none none none none
      "2025-01-02T00:00:00Z" prevDemoDoc).1 newChallengeStat (by decide),
   (merge_override_carry_forward [newChallengeStat] none none none none none
      "2025-01-02T00:00:00Z" prevDemoDoc).2.2.1 (by decide) oldChallengeStat
      (by decide) (by decide),
   by decide⟩

/-- Ten meditation sessions of 90 seconds by ten distinct actors: enough
actors to pass the community gate. -/
def medEvents : List Event :=
  demoUsers.map (fun u =>
    { baseEvent with
        distinct_id := some u
        category := some "meditation"
        actual_duration_seconds := some 90 })

/-- The meditation total as the claim words it: the sum of the
duration-seconds of the meditation sessions, integer-divided by 60 with
truncation.  Stated from the claim, to be compared with the script's
per-session accumulation. -/
def claimed_total_meditation_minutes (events : List Event) : ℕ :=
  ((events.filter (fun e => e.category = some "meditation")).map
    (fun e => e.actual_duration_seconds.getD 0)).sum / 60

/-- Claim C6 counterexample: for ten 90-second meditation sessions the
script emits 10 minutes (each session truncates `90 // 60` to 1), while
the claim's sum-then-divide formula gives `900 / 60 = 15`. -/
theorem meditation_minutes_divergence_cx :
    (calculate_community_stats medEvents [] [] [] [] []).map
        (fun s => s.total_meditation_minutes_today) = some 10 ∧
      claimed_total_meditation_minutes medEvents = 15 := by decide

/-- Claim C6 (amended): `total_meditation_minutes_today` is the sum over
the meditation-category sessions of each session's duration-seconds
integer-divided by 60 — truncation happens per session before summing,
not once on the summed seconds. -/
theorem meditation_minutes_per_session_truncation
    (today week tc wc tm tj : List Event) (s : CommunityStats)
    (h : calculate_community_stats today week tc wc tm tj = some s) :
    s.total_meditation_minutes_today =
      ((today.filter (fun e => e.category = some "meditation")).map
        (fun e => e.actual_duration_seconds.getD 0 / 60)).sum := by
  rw [calculate_community_stats] at h
  by_cases hlt : uniqueUsers today < MIN_DAILY_USERS
  · rw [if_pos hlt] at h
    exact absurd h (by simp)
  · rw [if_neg hlt] at h
    obtain rfl := (Option.some.inj h).symm
    rfl

/-- The community record of the ten-meditation-session input. -/
def medCommunityStat : CommunityStats :=
  { active_users_today := 10
    active_users_this_week := 0
    challenges_completed_today := 0
    challenges_completed_this_week := 0
    milestones_hit_today := 0
    total_meditation_minutes_today := 10
    total_journal_entries_today := 0 }

theorem meditation_minutes_per_session_truncation_witness :
    calculate_community_stats medEvents [] [] [] [] [] = some medCommunityStat ∧
      medCommunityStat.total_meditation_minutes_today =
        ((medEvents.filter (fun e => e.category = some "meditation")).map
          (fun e => e.actual_duration_seconds.getD 0 / 60)).sum :=
  ⟨by decide,
   meditation_minutes_per_session_truncation medEvents [] [] [] [] []
     medCommunityStat (by decide)⟩
